import Mathlib

/-!
# Verification of the DecisionTreeTool decision-tree core

A shallow embedding of `src/DecisionTreeTool/decision_tree_tool.py`
(classes `DecisionNode`, `DecisionTree`, `DecisionTreeExporter`) and of
`RobustDecisionTree.find_best_match` from
`src/DecisionTreeTool/decision_tree_robust.py`, together with theorems
settling the frozen claims about the natural-language specification.

Modelling conventions:
* Python `dict` (which preserves insertion order) is modelled as an ordered
  association list `List (String × α)`; `d[k] = v` is `dictSet` (update in
  place if the key exists, else append), lookup is `dictGet`.
* Python floats that only ever hold the literal constants of the source
  (confidence values) are modelled as `Rat`.
* Calls into external libraries (`json.dumps`, `yaml.dump`, `re.match`,
  `uuid.uuid4`, `datetime.now`) are modelled as explicit parameters of the
  embedded functions: the source treats them as opaque collaborators.
* A Python method that raises is modelled as a function into `Except`;
  the distinct `raise` sites of the source are mapped to the constructors
  of `TreeError` below.
* The f-string entries appended to the `path` list during traversal are
  modelled by the inductive type `PathEntry`, one constructor per append
  site in the source, carrying the interpolated data.
-/

namespace DecisionTreeTool

/-! ## Python dict / string primitives -/

/-- Lookup in an ordered association list (Python `d[k]` / `k in d`). -/
def dictGet {α : Type} (d : List (String × α)) (k : String) : Option α :=
  match d.find? (fun p => p.1 == k) with
  | some p => some p.2
  | none => none

/-- Python `d[k] = v`: replace the value in place if the key is present
(keeping its position, as Python dicts do), otherwise append at the end. -/
def dictSet {α : Type} (d : List (String × α)) (k : String) (v : α) :
    List (String × α) :=
  match d with
  | [] => [(k, v)]
  | p :: rest => if p.1 == k then (k, v) :: rest else p :: dictSet rest k v

/-- Python `k in d`. -/
def dictContains {α : Type} (d : List (String × α)) (k : String) : Bool :=
  (dictGet d k).isSome

/-- `sub` is a contiguous prefix of `hay` (on character lists). -/
def charsPrefix : List Char → List Char → Bool
  | [], _ => true
  | _ :: _, [] => false
  | a :: as, b :: bs => a == b && charsPrefix as bs

/-- `sub` occurs contiguously inside `hay` (on character lists). -/
def charsSub (sub : List Char) : List Char → Bool
  | [] => charsPrefix sub []
  | c :: rest => charsPrefix sub (c :: rest) || charsSub sub rest

/-- Python `sub in hay` for strings (contiguous substring test). -/
def pySubstr (sub hay : String) : Bool :=
  charsSub sub.toList hay.toList

/-
The Python string primitives are re-implemented over character lists
(rather than through the core `String` API, whose byte-position loops are
defined by well-founded recursion and so do not evaluate inside the
kernel).  On the ASCII content these graphs hold, they agree with both
Python and the core `String` versions.
-/

/-- ASCII lower-casing of one character (what both Python `str.lower` and
core `Char.toLower` do on ASCII input). -/
def lowerChar (c : Char) : Char :=
  if 'A' ≤ c && c ≤ 'Z' then Char.ofNat (c.toNat + 32) else c

/-- Python `s.lower()`. -/
def pyLower (s : String) : String := ⟨s.data.map lowerChar⟩

/-- ASCII whitespace for `strip`. -/
def isWs (c : Char) : Bool := c == ' ' || c == '\t' || c == '\n' || c == '\r'

/-- Python `s.strip()`. -/
def pyStrip (s : String) : String :=
  ⟨((s.data.dropWhile isWs).reverse.dropWhile isWs).reverse⟩

/-- Python `s.lower().strip()` (the order used at the truthiness test). -/
def lowerStrip (s : String) : String := pyStrip (pyLower s)

/-- Python `s[:n]` on code points. -/
def pyTake (s : String) (n : Nat) : String := ⟨s.data.take n⟩

/-- Python `s[n:]` on code points. -/
def pyDrop (s : String) (n : Nat) : String := ⟨s.data.drop n⟩

/-- Python `len(s)` on code points. -/
def pyLen (s : String) : Nat := s.data.length

/-- Python `s.startswith(p)`. -/
def pyStartsWith (s p : String) : Bool := charsPrefix p.data s.data

/-- Left-to-right non-overlapping replacement on character lists
(`fuel` is an upper bound on the input length, supplied by
`pyReplace`). -/
def replaceChars (pat rep : List Char) : Nat → List Char → List Char
  | 0, l => l
  | _ + 1, [] => []
  | fuel + 1, c :: rest =>
    if charsPrefix pat (c :: rest) then
      rep ++ replaceChars pat rep fuel ((c :: rest).drop pat.length)
    else
      c :: replaceChars pat rep fuel rest

/-- Python `s.replace(pat, rep)` (for the non-empty patterns the
exporters use). -/
def pyReplace (s pat rep : String) : String :=
  ⟨replaceChars pat.data rep.data s.data.length s.data⟩

/-- Python `sep.join(lines)`. -/
def joinSep (sep : String) : List String → String
  | [] => ""
  | x :: rest => rest.foldl (fun acc y => acc ++ sep ++ y) x

/-! ## Data model (`DecisionNode`, `DecisionTree`) -/

/-- `DecisionNode` dataclass of `decision_tree_tool.py`.  `children` maps
answer labels to child node ids; `metadata` is an open-ended bag whose
values the core never interprets (modelled as strings). -/
structure DecisionNode where
  id : String
  question : String
  node_type : String
  children : List (String × String)
  action : Option String
  confidence : Option Rat
  metadata : List (String × String)
deriving Repr, DecidableEq

/-- `DecisionTree` object state: name, description, node map, root id and
the two ISO timestamp strings. -/
structure DecisionTree where
  name : String
  description : String
  nodes : List (String × DecisionNode)
  root_id : Option String
  created_at : String
  updated_at : String
deriving Repr, DecidableEq

/-- Error taxonomy: one constructor per distinct `raise ValueError(...)`
message category of the source (`validation` for malformed input,
`notFound` for an unknown node id, `cycle` for a link that would create a
cycle). -/
inductive TreeError where
  | validation (msg : String)
  | notFound (id : String)
  | cycle (parent child : String)
deriving Repr, DecidableEq

/-! ## Mutation API -/

/-- `DecisionTree.add_node`.  The `uuid.uuid4()[:8]` call and
`datetime.now().isoformat()` are external; the generated id and timestamp
are passed in as `fresh_id` and `now`.  On success returns the new id and
the updated tree. -/
def add_node (g : DecisionTree) (fresh_id now : String) (question : String)
    (node_type : String) (action : Option String) (confidence : Option Rat)
    (metadata : List (String × String)) :
    Except TreeError (String × DecisionTree) :=
  -- `if not question or not question.strip(): raise ValueError(...)`
  if pyStrip question = "" then
    .error (.validation "Question cannot be empty")
  -- `if node_type not in ["condition", "action", "data"]: raise ...`
  else if !(["condition", "action", "data"].contains node_type) then
    .error (.validation "Invalid node_type")
  -- `if confidence is not None and not (0.0 <= confidence <= 1.0): raise ...`
  else if (match confidence with
           | some c => !(0 ≤ c && c ≤ 1)
           | none => false) then
    .error (.validation "Confidence must be between 0.0 and 1.0")
  else
    -- `question = question.strip()`
    let question := pyStrip question
    let node : DecisionNode :=
      { id := fresh_id, question := question, node_type := node_type,
        action := action, confidence := confidence, metadata := metadata,
        children := [] }
    let nodes := dictSet g.nodes fresh_id node
    -- `if self.root_id is None: self.root_id = node_id`
    let root := match g.root_id with
      | none => some fresh_id
      | some r => some r
    .ok (fresh_id, { g with nodes := nodes, root_id := root,
                            updated_at := now })

/-- `DecisionTree._would_create_cycle`: DFS helper `can_reach`, threading
the shared `visited` set.  `fuel` bounds the recursion depth; every nested
call adds a fresh node to `visited`, so `g.nodes.length + 1` levels
suffice. -/
def canReach (g : DecisionTree) :
    Nat → String → String → List String → Bool × List String
  | 0, _, _, visited => (false, visited)
  | fuel + 1, current, target, visited =>
    if current == target then (true, visited)
    else if visited.contains current || !(dictContains g.nodes current) then
      (false, visited)
    else
      let visited := current :: visited
      match dictGet g.nodes current with
      | none => (false, visited)
      | some node =>
        node.children.foldl
          (fun acc child =>
            if acc.1 then acc
            else canReach g fuel child.2 target acc.2)
          (false, visited)

/-- `DecisionTree._would_create_cycle(parent_id, child_id)`. -/
def would_create_cycle (g : DecisionTree) (parent_id child_id : String) :
    Bool :=
  if parent_id == child_id then true
  else (canReach g (g.nodes.length + 1) child_id parent_id []).1

/-- `DecisionTree.add_child`.  All `raise` sites precede the mutation, so
an error leaves the caller's tree untouched (the `Except` result carries
no tree in the error case). -/
def add_child (g : DecisionTree) (now : String)
    (parent_id answer child_id : String) : Except TreeError DecisionTree :=
  -- `if not parent_id or parent_id not in self.nodes: raise ...`
  if parent_id = "" || !(dictContains g.nodes parent_id) then
    .error (.notFound parent_id)
  -- `if not child_id or child_id not in self.nodes: raise ...`
  else if child_id = "" || !(dictContains g.nodes child_id) then
    .error (.notFound child_id)
  -- `if not answer or not answer.strip(): raise ...`
  else if pyStrip answer = "" then
    .error (.validation "Answer cannot be empty")
  -- `if self._would_create_cycle(parent_id, child_id): raise ...`
  else if would_create_cycle g parent_id child_id then
    .error (.cycle parent_id child_id)
  else
    -- `answer = answer.strip()`; `self.nodes[parent_id].children[answer] = child_id`
    let answer := pyStrip answer
    let nodes := match dictGet g.nodes parent_id with
      | none => g.nodes  -- unreachable: presence was checked above
      | some parent =>
        dictSet g.nodes parent_id
          { parent with children := dictSet parent.children answer child_id }
    .ok { g with nodes := nodes, updated_at := now }

/-! ## Traversal (`DecisionTree.traverse`) -/

/-- One constructor per `path.append(f"...")` site of `traverse`,
carrying the interpolated data. -/
inductive PathEntry where
  /-- `f"Node: {current_node.question}"` -/
  | node (question : String)
  /-- `f"Action: {action_text}"` -/
  | action (text : String)
  /-- `f"Answer: {matched_answer}"` -/
  | answer (matched : String)
  /-- `f"No matching path found. Available answers: {available_answers}"` -/
  | noMatch (available : List String)
  /-- `f"⚠️ Cycle detected at node: {current_id}"` -/
  | cycleDetected (id : String)
  /-- `"⚠️ Maximum traversal depth reached (safety brake engaged!)"` -/
  | maxDepth
  /-- `f"Error: Node
 not found (ghost node alert!)"` -/
  | nodeNotFound (id : String)
  /-- `"Error: Empty tree (can
t navigate the void!)"` -/
  | emptyTree
deriving Repr, DecidableEq

/-- `str(value).lower().strip() in ["true", "yes", "1", "y"]` — the
truthiness test `traverse` applies to answer values. -/
def truthy (v : String) : Bool :=
  ["true", "yes", "1", "y"].contains (lowerStrip v)

/-- The exact-match loop of `traverse`: first child edge whose label is a
key of the answers map with a truthy value. -/
def exactPhase (children answers : List (String × String)) :
    Option (String × String) :=
  children.find? (fun p =>
    match dictGet answers p.1 with
    | some v => truthy v
    | none => false)

/-- The fuzzy-match loop: first child edge whose label overlaps (as a
lowercase substring, in either direction) some answers-map key holding a
truthy value.  A match whose child id is the empty string is skipped: in
the source `if next_id: break` treats `""` as falsy, so the outer loop
keeps scanning. -/
def fuzzyPhase (children answers : List (String × String)) :
    Option (String × String) :=
  match children.find? (fun p =>
      p.2 != "" &&
      answers.any (fun q =>
        (pySubstr (pyLower p.1) (pyLower q.1) || pySubstr (pyLower q.1) (pyLower p.1))
        && truthy q.2)) with
  | some (a, c) => some (a ++ " (fuzzy match)", c)
  | none => none

/-- Edge selection of `traverse`: exact phase, then (when that produced no
id, or produced an empty-string id, both falsy in Python) the fuzzy
phase.  Returns the `matched_answer` text and the next node id. -/
def findNextEdge (children answers : List (String × String)) :
    Option (String × String) :=
  match exactPhase children answers with
  | some (a, c) => if c != "" then some (a, c) else fuzzyPhase children answers
  | none => fuzzyPhase children answers

/-- The `while current_id and depth < max_depth` loop of `traverse`.
`fuel = 100 - depth`; exhausting it is exactly `depth >= max_depth`, which
appends the max-depth entry.  (`current_id` is never the empty string:
the root was checked, and `findNextEdge` never returns `""`.) -/
def traverseLoop (g : DecisionTree) (answers : List (String × String)) :
    Nat → String → List PathEntry → List String →
    Option String × List PathEntry
  | 0, _, path, _ => (none, path ++ [.maxDepth])
  | fuel + 1, current, path, visited =>
    -- `if current_id in visited: ...`
    if visited.contains current then
      (none, path ++ [.cycleDetected current])
    else
      let visited := current :: visited
      -- `if current_id not in self.nodes: ...`
      match dictGet g.nodes current with
      | none => (none, path ++ [.nodeNotFound current])
      | some node =>
        let path := path ++ [.node node.question]
        if node.node_type = "action" then
          -- `action_text = current_node.action or "No action specified"`
          let actionText := match node.action with
            | some a => if a = "" then "No action specified" else a
            | none => "No action specified"
          (some actionText, path ++ [.action actionText])
        else
          match findNextEdge node.children answers with
          | none => (none, path ++ [.noMatch (node.children.map Prod.fst)])
          | some (lbl, nid) =>
            traverseLoop g answers fuel nid (path ++ [.answer lbl]) visited

/-- `DecisionTree.traverse(answers)`.  The `isinstance(answers, dict)`
guard is made vacuous by typing; `if not self.root_id` covers both `None`
and the empty string. -/
def traverse (g : DecisionTree) (answers : List (String × String)) :
    Option String × List PathEntry :=
  match g.root_id with
  | none => (none, [.emptyTree])
  | some r =>
    if r = "" then (none, [.emptyTree])
    else traverseLoop g answers 100 r [] []

/-! ## `RobustDecisionTree.find_best_match` (`decision_tree_robust.py`)

Only the fields that `find_best_match` reads are modelled. -/

/-- The slice of the robust variant's `DecisionNode` used by
`find_best_match`. -/
structure RobustNode where
  children : List (String × String)
  fallback_node : Option String
  fallback_reason : Option String
deriving Repr, DecidableEq

/-- Python `x or default` for an optional string (`None` and `""` both
fall through to the default). -/
def pyOr (x : Option String) (default : String) : String :=
  match x with
  | some s => if s = "" then default else s
  | none => default

/-- `RobustDecisionTree.find_best_match(node, answer, context)`.
`re.match` is the external parameter `reMatch pattern answer`.  Returns
`(child id or None, confidence, reason)`; the float confidence constants
of the source are modelled as the corresponding rationals. -/
def find_best_match (reMatch : String → String → Bool) (node : RobustNode)
    (answer : String) : Option String × Rat × String :=
  if node.children = [] then
    match node.fallback_node with
    | some f => (some f, 1/2, pyOr node.fallback_reason "No children, using fallback")
    | none => (none, 0, "No children")
  else
    -- `if answer in node.children: return node.children[answer], 1.0, ...`
    match dictGet node.children answer with
    | some c => (some c, 1, "Exact match")
    | none =>
      let answer_lower := pyLower answer
      -- case-insensitive loop
      match node.children.find? (fun p => pyLower p.1 == answer_lower) with
      | some p => (some p.2, 9/10, "Case-insensitive match")
      | none =>
        -- regex loop (labels of the form "regex:<pattern>")
        match node.children.find? (fun p =>
            pyStartsWith p.1 "regex:" && reMatch (pyDrop p.1 6) answer) with
        | some p => (some p.2, 8/10, "Regex match: " ++ pyDrop p.1 6)
        | none =>
          -- partial (substring) loop, skipping regex labels
          match node.children.find? (fun p =>
              !(pyStartsWith p.1 "regex:") &&
              (pySubstr answer_lower (pyLower p.1) ||
               pySubstr (pyLower p.1) answer_lower)) with
          | some p => (some p.2, 7/10, "Partial match")
          | none =>
            match node.fallback_node with
            | some f => (some f, 1/2, pyOr node.fallback_reason "Using fallback")
            | none => (none, 0, "No match or fallback")

/-- The matching precedence in the words of the (amended) claim: compute
the exact, case-insensitive, regex and partial candidates independently,
take the first available in that precedence order (each candidate itself
being the first matching child in insertion order), and otherwise use the
fallback.  Compared against `find_best_match` by `c2_matching_amended`. -/
def bestMatchSpec (reMatch : String → String → Bool) (node : RobustNode)
    (answer : String) : Option String × Rat × String :=
  if node.children = [] then
    match node.fallback_node with
    | some f => (some f, 1/2, pyOr node.fallback_reason "No children, using fallback")
    | none => (none, 0, "No children")
  else
    let exact : Option (Option String × Rat × String) :=
      (dictGet node.children answer).map (fun c => (some c, (1 : Rat), "Exact match"))
    let ci : Option (Option String × Rat × String) :=
      (node.children.find? (fun p => pyLower p.1 == pyLower answer)).map
        (fun p => (some p.2, (9/10 : Rat), "Case-insensitive match"))
    let rx : Option (Option String × Rat × String) :=
      (node.children.find? (fun p =>
          pyStartsWith p.1 "regex:" && reMatch (pyDrop p.1 6) answer)).map
        (fun p => (some p.2, (8/10 : Rat), "Regex match: " ++ pyDrop p.1 6))
    let part : Option (Option String × Rat × String) :=
      (node.children.find? (fun p =>
          !(pyStartsWith p.1 "regex:") &&
          (pySubstr (pyLower answer) (pyLower p.1) ||
           pySubstr (pyLower p.1) (pyLower answer)))).map
        (fun p => (some p.2, (7/10 : Rat), "Partial match"))
    let fb : Option String × Rat × String :=
      match node.fallback_node with
      | some f => (some f, 1/2, pyOr node.fallback_reason "Using fallback")
      | none => (none, 0, "No match or fallback")
    ((exact <|> ci <|> rx <|> part).getD fb)

/-! ## Structural validation (`DecisionTree.validate_tree`) -/

/-- One constructor per `issues.append(f"...")` site of `validate_tree`,
carrying the interpolated data.  The orphan issue carries the orphaned
ids; the source renders `set(nodes) - reachable` (arbitrary set order),
here they are listed in node-insertion order. -/
inductive Issue where
  /-- `"Tree is empty (existential crisis detected)"` -/
  | emptyTreeIssue
  /-- `"No root node specified (headless tree syndrome)"` -/
  | noRoot
  /-- `f"Root node
 not found (missing head alert!)"` -/
  | rootNotFound (id : String)
  /-- `f"Orphaned nodes found:
 (family reunion needed)"` -/
  | orphaned (ids : List String)
  /-- `f"Node
 references non-existent child
"` -/
  | danglingChild (node child : String)
  /-- `f"Action node
 has children (actions should be final destinations)"` -/
  | actionWithChildren (id : String)
deriving Repr, DecidableEq

/-- `mark_reachable` of `validate_tree`: recursive DFS accumulating the
reachable set.  `fuel` bounds the recursion depth; every nested call adds
a fresh node to the accumulator first, so `g.nodes.length + 1` levels
suffice. -/
def markReach (g : DecisionTree) : Nat → String → List String → List String
  | 0, _, acc => acc
  | fuel + 1, nid, acc =>
    if acc.contains nid || !(dictContains g.nodes nid) then acc
    else
      match dictGet g.nodes nid with
      | none => acc
      | some node =>
        node.children.foldl (fun a c => markReach g fuel c.2 a) (acc ++ [nid])

/-- The reachable-from-root set computed by `validate_tree`. -/
def reachableFromRoot (g : DecisionTree) (r : String) : List String :=
  markReach g (g.nodes.length + 1) r []

/-- Root diagnostics of `validate_tree`:
`if not self.root_id: ... elif self.root_id not in self.nodes: ...`. -/
def rootIssuesOf (g : DecisionTree) : List Issue :=
  match g.root_id with
  | none => [.noRoot]
  | some r =>
    if r = "" then [.noRoot]
    else if !(dictContains g.nodes r) then [.rootNotFound r] else []

/-- Orphan scan of `validate_tree`, guarded by
`if self.root_id and self.root_id in self.nodes:`. -/
def orphanIssuesOf (g : DecisionTree) : List Issue :=
  match g.root_id with
  | none => []
  | some r =>
    if r = "" || !(dictContains g.nodes r) then []
    else
      let reachable := reachableFromRoot g r
      let orphans := (g.nodes.map Prod.fst).filter
        (fun nid => !(reachable.contains nid))
      if orphans = [] then [] else [.orphaned orphans]

/-- Dangling child-reference scan of `validate_tree`. -/
def danglingIssuesOf (g : DecisionTree) : List Issue :=
  g.nodes.flatMap (fun p =>
    p.2.children.filterMap (fun c =>
      if !(dictContains g.nodes c.2) then some (.danglingChild p.1 c.2)
      else none))

/-- Action-nodes-with-children scan of `validate_tree`. -/
def actionIssuesOf (g : DecisionTree) : List Issue :=
  g.nodes.filterMap (fun p =>
    if p.2.node_type = "action" && !(p.2.children.isEmpty) then
      some (.actionWithChildren p.1)
    else none)

/-- `DecisionTree.validate_tree`: the early empty-graph return, then the
four diagnostic scans in source order. -/
def validate_tree (g : DecisionTree) : List Issue :=
  -- `if not self.nodes: issues.append(...); return issues`
  if g.nodes = [] then [.emptyTreeIssue]
  else
    rootIssuesOf g ++ orphanIssuesOf g ++ danglingIssuesOf g ++
      actionIssuesOf g

/-! ## Serialization (`to_dict` / `from_dict`) -/

/-- The per-node dictionary produced by `dataclasses.asdict`: one key per
`DecisionNode` field. -/
structure NodeDict where
  id : String
  question : String
  node_type : String
  children : List (String × String)
  action : Option String
  confidence : Option Rat
  metadata : List (String × String)
deriving Repr, DecidableEq

/-- The top-level dictionary produced by `DecisionTree.to_dict` (the keys
of the structured-data format, §6 of the spec: `name`, `description`,
`root_id`, `created_at`, `updated_at`, `nodes`).  `to_dict` always emits
every key, so the `.get(..., default)` fallbacks of `from_dict` for
absent keys are not representable here. -/
structure TreeDict where
  name : String
  description : String
  root_id : Option String
  created_at : String
  updated_at : String
  nodes : List (String × NodeDict)
deriving Repr, DecidableEq

/-- `dataclasses.asdict(node)`. -/
def asdictNode (n : DecisionNode) : NodeDict :=
  { id := n.id, question := n.question, node_type := n.node_type,
    children := n.children, action := n.action, confidence := n.confidence,
    metadata := n.metadata }

/-- `DecisionNode(**node_data)` in `from_dict` (the `__post_init__`
`None` defaults never fire: `asdict` emits concrete dicts). -/
def nodeFromDict (d : NodeDict) : DecisionNode :=
  { id := d.id, question := d.question, node_type := d.node_type,
    children := d.children, action := d.action, confidence := d.confidence,
    metadata := d.metadata }

/-- `DecisionTree.to_dict`. -/
def to_dict (g : DecisionTree) : TreeDict :=
  { name := g.name, description := g.description, root_id := g.root_id,
    created_at := g.created_at, updated_at := g.updated_at,
    nodes := g.nodes.map (fun p => (p.1, asdictNode p.2)) }

/-- `DecisionTree.from_dict`. -/
def from_dict (d : TreeDict) : DecisionTree :=
  { name := d.name, description := d.description, root_id := d.root_id,
    created_at := d.created_at, updated_at := d.updated_at,
    nodes := d.nodes.map (fun p => (p.1, nodeFromDict p.2)) }

/-! ## Exporters (`DecisionTreeExporter`)

Each exporter method is embedded as a function returning the produced
string together with the (untouched) tree — the pair models "the method's
return value, and `self` after the call", so any mutation of the graph
would be visible in the second component.  The optional `filepath` write
is omitted (the claims concern the no-filepath calls). -/

/-- `DecisionTreeExporter.to_json`: `json.dumps(tree.to_dict(), indent=2)`
with the library serializer as the external parameter `dumps`. -/
def to_json (dumps : TreeDict → String) (tree : DecisionTree) :
    String × DecisionTree :=
  (dumps (to_dict tree), tree)

/-- `DecisionTreeExporter.to_yaml`: `yaml.dump(tree.to_dict(), ...)` with
the library serializer as the external parameter `dumps`. -/
def to_yaml (dumps : TreeDict → String) (tree : DecisionTree) :
    String × DecisionTree :=
  (dumps (to_dict tree), tree)

/-- `clean_text` helper of `to_mermaid`:
`text.replace('"', "'").replace('\n', ' ').strip()`. -/
def clean_text (text : String) : String :=
  pyStrip (pyReplace (pyReplace text "\"" "\x27") "\n" " ")

/-- The string `DecisionTreeExporter.to_mermaid` builds. -/
def to_mermaid_str (tree : DecisionTree) : String :=
  match tree.root_id with
  | none => "graph TD\n    A[Empty Tree]"
  | some r =>
    if r = "" then "graph TD\n    A[Empty Tree]"
    else
      let nodeLines := tree.nodes.flatMap (fun p =>
        let node_id := p.1
        let node := p.2
        let clean_question := clean_text node.question
        let decls :=
          if node.node_type = "action" then
            ["    " ++ node_id ++ "[\"" ++ clean_question ++ "\"]",
             "    " ++ node_id ++ " --> " ++ node_id ++ "_action[\"" ++
               clean_text (match node.action with
                           | some a => a
                           | none => "") ++ "\"]",
             "    " ++ node_id ++ "_action:::actionClass"]
          else
            ["    " ++ node_id ++ "[\"" ++ clean_question ++ "\"]"]
        decls ++ node.children.map (fun c =>
          "    " ++ node_id ++ " -->|" ++ clean_text c.1 ++ "| " ++ c.2))
      let allLines := ["graph TD"] ++ nodeLines ++
        ["    classDef actionClass fill:#90EE90,stroke:#006400,stroke-width:2px",
         "    classDef conditionClass fill:#87CEEB,stroke:#000080,stroke-width:2px"]
      joinSep "\n" allLines

/-- `DecisionTreeExporter.to_mermaid`: the produced string together with
the untouched tree. -/
def to_mermaid (tree : DecisionTree) : String × DecisionTree :=
  (to_mermaid_str tree, tree)

/-- The string `DecisionTreeExporter.to_dot` builds (no filepath).
Literal braces of the DOT syntax are written with hexadecimal escapes. -/
def to_dot_str (tree : DecisionTree) : String :=
  match tree.root_id with
  | none =>
    "digraph DecisionTree \x7b\n    empty [label=\"Empty Tree\"]\n\x7d"
  | some r =>
    if r = "" then
      "digraph DecisionTree \x7b\n    empty [label=\"Empty Tree\"]\n\x7d"
    else
      let header :=
        ["digraph DecisionTree \x7b",
         "    rankdir=TD;",
         "    node [shape=box, style=rounded];"]
      let nodeStmts := tree.nodes.map (fun p =>
        let label := pyReplace p.2.question "\"" "\\\""
        if p.2.node_type = "action" then
          "    " ++ p.1 ++ " [label=\"" ++ label ++ "\\n→ " ++
            (match p.2.action with
             | some a => a
             | none => "") ++ "\", fillcolor=lightgreen, style=\"rounded,filled\"];"
        else
          "    " ++ p.1 ++ " [label=\"" ++ label ++
            "\", fillcolor=lightblue, style=\"rounded,filled\"];")
      let edgeStmts := tree.nodes.flatMap (fun p =>
        p.2.children.map (fun c =>
          "    " ++ p.1 ++ " -> " ++ c.2 ++ " [label=\"" ++
            pyReplace c.1 "\"" "\\\"" ++ "\"];"))
      joinSep "\n" (header ++ nodeStmts ++ edgeStmts ++ ["\x7d"])

/-- `DecisionTreeExporter.to_dot`: the produced string together with the
untouched tree. -/
def to_dot (tree : DecisionTree) : String × DecisionTree :=
  (to_dot_str tree, tree)

/-! ## Terminal tree art (`DecisionTreeExporter.to_ascii`) -/

/-- Python `q[:n] + ("..." if len(q) > n else "")` (the short-label
truncation used by the ASCII renderer). -/
def truncQ (q : String) (n : Nat) : String :=
  if pyLen q > n then pyTake q n ++ "..." else q

/-- The mutable closure state of `to_ascii`: the output `lines`, the
"currently on this DFS path" set `visited_in_path` and the short-label
map `node_first_occurrence`. -/
structure AsciiState where
  lines : List String
  visited_in_path : List String
  node_first_occurrence : List (String × String)
deriving Repr, DecidableEq

/-- The `draw_node` closure of `to_ascii`.  `pfx` is the source's string
accumulator of box-drawing indentation.  `fuel` only bounds the
structural recursion: the source's `depth > 20` guard fires long before
an initial fuel of 30 can run out, so the fuel-0 branch is unreachable
from `to_ascii`. -/
def draw_node (g : DecisionTree) :
    Nat → String → String → Bool → String → Nat → AsciiState → AsciiState
  | 0, _, _, _, _, _, st => st
  | fuel + 1, node_id, pfx, is_last, parent_answer, depth, st =>
    -- `if node_id not in tree.nodes: return`
    match dictGet g.nodes node_id with
    | none => st
    | some node =>
      let connector := if is_last then "└── " else "├── "
      let answer_label :=
        if parent_answer ≠ "" then "[" ++ parent_answer ++ "] " else ""
      -- `if node_id in visited_in_path:` — emit a cycle reference
      if st.visited_in_path.contains node_id then
        let cycle_text :=
          match dictGet st.node_first_occurrence node_id with
          | some target => answer_label ++ "🔄 → loops back to: " ++ target
          | none => answer_label ++ "🔄 → cycles back to: " ++ truncQ node.question 50
        { st with lines := st.lines ++ [pfx ++ connector ++ cycle_text] }
      -- `if depth > 20:` — recursion ceiling
      else if depth > 20 then
        { st with lines := st.lines ++
            [pfx ++ connector ++ answer_label ++ "⚠️  → (max depth reached)"] }
      else
        let st := { st with visited_in_path := st.visited_in_path ++ [node_id] }
        let node_text :=
          if node.node_type = "action" then
            answer_label ++ node.question ++ " → " ++ pyOr node.action "No action"
          else
            answer_label ++ node.question
        let st :=
          if (dictGet st.node_first_occurrence node_id).isNone then
            { st with node_first_occurrence :=
                dictSet st.node_first_occurrence node_id (truncQ node.question 30) }
          else st
        let st := { st with lines := st.lines ++ [pfx ++ connector ++ node_text] }
        let new_pfx := pfx ++ (if is_last then "    " else "│   ")
        let items := node.children
        let st := items.enum.foldl
          (fun s ic =>
            draw_node g fuel ic.2.2 new_pfx (ic.1 == items.length - 1) ic.2.1
              (depth + 1) s)
          st
        -- `visited_in_path.remove(node_id)` on the way back out
        { st with visited_in_path := st.visited_in_path.erase node_id }

/-- The legend line appended when any cycle marker was emitted. -/
def legendLine : String := "Legend: 🔄 = cycle/loop back to earlier node"

/-- `DecisionTreeExporter.to_ascii`, split at the final
`"\n".join(lines)`: the list of produced lines.  `none` models the
`KeyError` the source raises at `tree.nodes[tree.root_id]` when the root
id names no node. -/
def to_ascii_lines (tree : DecisionTree) : Option (List String) :=
  match tree.root_id with
  | none => some ["Empty Tree"]
  | some r =>
    if r = "" then some ["Empty Tree"]
    else
      match dictGet tree.nodes r with
      | none => none
      | some root_node =>
        let lines := ["🌳 " ++ tree.name] ++
          (if tree.description ≠ "" then ["   " ++ tree.description] else []) ++
          [""] ++ ["Root: " ++ root_node.question]
        let st0 : AsciiState :=
          { lines := lines, visited_in_path := [],
            node_first_occurrence := [(r, truncQ root_node.question 30)] }
        let items := root_node.children
        let st := items.enum.foldl
          (fun s ic =>
            draw_node tree 30 ic.2.2 "" (ic.1 == items.length - 1) ic.2.1 0 s)
          st0
        let outLines :=
          if st.lines.any (fun l => pySubstr "🔄" l) then
            st.lines ++ ["", legendLine]
          else st.lines
        some outLines

/-- `DecisionTreeExporter.to_ascii` proper: lines joined with newlines,
returned together with the untouched tree (same convention as the other
exporters). -/
def to_ascii (tree : DecisionTree) : Option String × DecisionTree :=
  ((to_ascii_lines tree).map (joinSep "\n"), tree)

/-! ## Concrete graphs used by the claims -/

/-- A condition node literal (direct data construction, as a graph
rebuilt by `from_dict` would hold it). -/
def condN (i q : String) (ch : List (String × String)) : DecisionNode :=
  { id := i, question := q, node_type := "condition", children := ch,
    action := none, confidence := none, metadata := [] }

/-- An action node literal. -/
def actN (i q a : String) : DecisionNode :=
  { id := i, question := q, node_type := "action", children := [],
    action := some a, confidence := none, metadata := [] }

/-- A tree literal with fixed name/description/timestamps. -/
def mkTree (ns : List (String × DecisionNode)) (root : Option String) :
    DecisionTree :=
  { name := "T", description := "", nodes := ns, root_id := root,
    created_at := "t0", updated_at := "t0" }

/-- The §8 scenario tree built through the mutation API: root condition
"Is it urgent?" with edge "yes" to action "Escalate now" and edge "no" to
condition "Check severity", which has edge "low" to action "Log only".
The externally generated ids are "r", "a1", "c1", "a2". -/
def scenarioBuild : Except TreeError DecisionTree := do
  let (r, g) ← add_node (mkTree [] none) "r" "t1" "Is it urgent?" "condition"
    none none []
  let (a1, g) ← add_node g "a1" "t1" "Escalate now" "action"
    (some "Escalate now") none []
  let (c1, g) ← add_node g "c1" "t1" "Check severity" "condition" none none []
  let (a2, g) ← add_node g "a2" "t1" "Log only" "action" (some "Log only")
    none []
  let g ← add_child g "t2" r "yes" a1
  let g ← add_child g "t2" r "no" c1
  let g ← add_child g "t2" c1 "low" a2
  pure g

/-- The value `scenarioBuild` produces (checked by `scenarioBuild_ok`
inside the claim theorems that use it). -/
def scenarioTree : DecisionTree :=
  { name := "T", description := "",
    nodes :=
      [("r", condN "r" "Is it urgent?" [("yes", "a1"), ("no", "c1")]),
       ("a1", actN "a1" "Escalate now" "Escalate now"),
       ("c1", condN "c1" "Check severity" [("low", "a2")]),
       ("a2", actN "a2" "Log only" "Log only")],
    root_id := some "r", created_at := "t0", updated_at := "t2" }

/-- Two-node graph with the single edge A→B (for the indirect-cycle
rejection checks of `add_child`). -/
def gAB : DecisionTree :=
  mkTree [("A", condN "A" "A?" [("go", "B")]), ("B", condN "B" "B?" [])]
    (some "A")

/-- Three-node chain A→B→C. -/
def gABC : DecisionTree :=
  mkTree [("A", condN "A" "A?" [("go", "B")]),
          ("B", condN "B" "B?" [("go", "C")]),
          ("C", condN "C" "C?" [])] (some "A")

/-- A two-node directed cycle a→b→a, constructed by direct data
manipulation (this graph cannot be built through `add_child`). -/
def cyc2Tree : DecisionTree :=
  mkTree [("a", condN "a" "Is A?" [("go", "b")]),
          ("b", condN "b" "Is B?" [("go", "a")])] (some "a")

/-- A 105-node chain n0→n1→…→n104, deep enough to exhaust the 100-step
traversal depth guard. -/
def chainTree : DecisionTree :=
  mkTree
    ((List.range 105).map (fun i =>
      let nm := "n" ++ Nat.repr i
      (nm, condN nm ("Q" ++ Nat.repr i) [("go", "n" ++ Nat.repr (i + 1))])))
    (some "n0")

/-- A 24-node chain c0→…→c23 with the back edge c23→c22: the directed
cycle c22→c23→c22 is reachable from the root but lies entirely below the
ASCII renderer's depth-20 ceiling. -/
def deepCycTree : DecisionTree :=
  mkTree
    ((List.range 24).map (fun i =>
      let nm := "c" ++ Nat.repr i
      (nm, condN nm ("Q" ++ Nat.repr i)
        (if i == 23 then [("back", "c22")] else [("go", "c" ++ Nat.repr (i + 1))]))))
    (some "c0")

/-- Cycle a→b→a as the renderer sees it (distinct questions so the short
labels in the cycle marker are recognizable). -/
def shallowCycTree : DecisionTree := cyc2Tree

/-- Root plus a node that was added but never linked (the orphan
scenario of §8). -/
def orphanTree : DecisionTree :=
  mkTree [("r1", condN "r1" "Start?" []), ("n2", actN "n2" "Do it" "Do it")]
    (some "r1")

/-- `orphanTree` after `add_child("r1", "go", "n2")`. -/
def linkedTree : DecisionTree :=
  { mkTree [("r1", condN "r1" "Start?" [("go", "n2")]),
            ("n2", actN "n2" "Do it" "Do it")] (some "r1") with
    updated_at := "t3" }

/-- A graph whose `root_id` names no node (constructible only by direct
data import, e.g. `from_dict` on hand-edited data). -/
def badRootTree : DecisionTree := mkTree [] (some "x")

/-- Number of nodes visited by a traversal: the `Node:` entries of its
path. -/
def nodeCount (p : List PathEntry) : Nat :=
  p.countP (fun e => match e with | .node _ => true | _ => false)

/-- The path entries that can only occur as the final, outcome-reporting
entry of a traversal (action reached, no match, cycle detected, max
depth, ghost node, empty tree). -/
def isTerminal : PathEntry → Bool
  | .node _ => false
  | .answer _ => false
  | _ => true

/-! ## Shared lemmas -/

theorem dictGet_mem {α : Type} {d : List (String × α)} {k : String} {v : α}
    (h : dictGet d k = some v) : (k, v) ∈ d := by
  unfold dictGet at h
  cases hf : d.find? (fun p => p.1 == k) with
  | none => rw [hf] at h; exact absurd h (by simp)
  | some q =>
    rw [hf] at h
    have hm := List.mem_of_find?_eq_some hf
    have hp := List.find?_some hf
    have hk : q.1 = k := by simpa using hp
    have hv : q.2 = v := by simpa using h
    have : q = (k, v) := by
      cases q; simp_all
    rwa [this] at hm

theorem dictContains_false_iff {α : Type} (d : List (String × α))
    (k : String) : dictContains d k = false ↔ dictGet d k = none := by
  unfold dictContains
  cases dictGet d k <;> simp

theorem dictSet_of_get_none {α : Type} {d : List (String × α)} {k : String}
    (v : α) (h : dictGet d k = none) : dictSet d k v = d ++ [(k, v)] := by
  induction d with
  | nil => rfl
  | cons p rest ih =>
    simp only [dictGet, List.find?] at h ih
    cases hk : (p.1 == k) with
    | true => rw [hk] at h; simp at h
    | false =>
      rw [hk] at h
      simp only [dictSet, hk, Bool.false_eq_true, if_false]
      rw [ih h]
      simp

/-- Unfolding step of the traversal loop at positive fuel. -/
theorem traverseLoop_succ (g : DecisionTree)
    (answers : List (String × String)) (fuel : Nat) (current : String)
    (path : List PathEntry) (visited : List String) :
    traverseLoop g answers (fuel + 1) current path visited =
      if visited.contains current then
        (none, path ++ [.cycleDetected current])
      else
        match dictGet g.nodes current with
        | none => (none, path ++ [.nodeNotFound current])
        | some node =>
          let path := path ++ [.node node.question]
          if node.node_type = "action" then
            let actionText := match node.action with
              | some a => if a = "" then "No action specified" else a
              | none => "No action specified"
            (some actionText, path ++ [.action actionText])
          else
            match findNextEdge node.children answers with
            | none => (none, path ++ [.noMatch (node.children.map Prod.fst)])
            | some (lbl, nid) =>
              traverseLoop g answers fuel nid (path ++ [.answer lbl])
                (current :: visited) := rfl

/-! ## Claim C1 — the §8 scenario -/

/-- C1 (counterexample).  On the scenario tree built through the mutation
API, `traverse` with the question-keyed answers map
`{"Is it urgent?": "no", "Check severity": "low"}` does **not** return
"Log only" (it reports the no-matching-path outcome after visiting only
the root), and `{"Is it urgent?": "yes"}` does not return "Escalate now":
`traverse` compares answers-map **keys** against edge labels and demands
a truthy **value**, so question-keyed entries never select an edge. -/
theorem c1_scenario_counterexample :
    scenarioBuild = .ok scenarioTree ∧
    traverse scenarioTree [("Is it urgent?", "no"), ("Check severity", "low")] =
      (none, [.node "Is it urgent?", .noMatch ["yes", "no"]]) ∧
    (traverse scenarioTree
        [("Is it urgent?", "no"), ("Check severity", "low")]).1 ≠
      some "Log only" ∧
    traverse scenarioTree [("Is it urgent?", "yes")] =
      (none, [.node "Is it urgent?", .noMatch ["yes", "no"]]) ∧
    (traverse scenarioTree [("Is it urgent?", "yes")]).1 ≠
      some "Escalate now" :=
  ⟨rfl, by decide, by decide, by decide, by decide⟩

/-- C1 (amended).  The scenario results the claim describes are produced
when the answers map is keyed by the **edge labels** with truthy values:
`{"no": "yes", "low": "yes"}` yields "Log only" with a 3-node path,
`{"yes": "yes"}` yields "Escalate now" with a 2-node path, and
`{"Is it urgent?": "maybe"}` reports the no-matching-path outcome (that
part of the claim holds as stated). -/
theorem c1_scenario_amended :
    scenarioBuild = .ok scenarioTree ∧
    traverse scenarioTree [("no", "yes"), ("low", "yes")] =
      (some "Log only",
       [.node "Is it urgent?", .answer "no", .node "Check severity",
        .answer "low", .node "Log only", .action "Log only"]) ∧
    nodeCount (traverse scenarioTree [("no", "yes"), ("low", "yes")]).2 = 3 ∧
    traverse scenarioTree [("yes", "yes")] =
      (some "Escalate now",
       [.node "Is it urgent?", .answer "yes", .node "Escalate now",
        .action "Escalate now"]) ∧
    nodeCount (traverse scenarioTree [("yes", "yes")]).2 = 2 ∧
    traverse scenarioTree [("Is it urgent?", "maybe")] =
      (none, [.node "Is it urgent?", .noMatch ["yes", "no"]]) :=
  ⟨rfl, by decide, by decide, by decide, by decide, by decide⟩

/-! ## Claim C5 — structured-data round trip -/

theorem nodeFromDict_asdict (n : DecisionNode) :
    nodeFromDict (asdictNode n) = n := by
  cases n; rfl

/-- C5.  `from_dict ∘ to_dict` is the identity: re-importing an exported
graph reproduces the node set (ids and every per-node field), the
children maps, the root id, the name, the description — and the
timestamps as well. -/
theorem c5_roundtrip (g : DecisionTree) : from_dict (to_dict g) = g := by
  cases g with
  | mk name description nodes root_id created_at updated_at =>
    simp only [from_dict, to_dict, List.map_map]
    have : nodes.map ((fun p : String × NodeDict => (p.1, nodeFromDict p.2)) ∘
        (fun p : String × DecisionNode => (p.1, asdictNode p.2))) = nodes := by
      calc nodes.map ((fun p : String × NodeDict => (p.1, nodeFromDict p.2)) ∘
            (fun p : String × DecisionNode => (p.1, asdictNode p.2)))
          = nodes.map id := by
            apply List.map_congr_left
            intro p _
            cases p with
            | mk a b => simp [Function.comp, nodeFromDict_asdict]
        _ = nodes := List.map_id nodes
    simp [this]

/-! ## Claim C10 — exporter purity -/

/-- C10 (counterexample).  `to_ascii` is not total on every graph: on a
graph whose `root_id` names no node (constructible only by direct data
import) the source raises `KeyError` at `tree.nodes[tree.root_id]`
instead of returning a string; the embedding returns `none` there. -/
theorem c10_export_counterexample :
    badRootTree.root_id = some "x" ∧
    dictGet badRootTree.nodes "x" = none ∧
    (to_ascii badRootTree).1 = none :=
  ⟨rfl, by decide, by decide⟩

/-- C10 (amended).  Every exporter leaves every field of the graph
unchanged (the second component of each embedded method is the object
after the call), and each returns a string — `to_ascii` whenever the
graph's root id is unset or names an existing node. -/
theorem c10_export_pure (dumpsJ dumpsY : TreeDict → String)
    (g : DecisionTree) :
    (to_json dumpsJ g).2 = g ∧ (to_yaml dumpsY g).2 = g ∧
    (to_mermaid g).2 = g ∧ (to_dot g).2 = g ∧ (to_ascii g).2 = g ∧
    (∀ r, g.root_id = some r → r ≠ "" → dictGet g.nodes r ≠ none →
      ∃ s, (to_ascii g).1 = some s) := by
  refine ⟨rfl, rfl, rfl, rfl, rfl, ?_⟩
  intro r hr hne hsome
  unfold to_ascii to_ascii_lines
  rw [hr]
  simp only [if_neg hne]
  cases hd : dictGet g.nodes r with
  | none => exact absurd hd hsome
  | some root_node => exact ⟨_, rfl⟩

/-- Witness for `c10_export_pure` at the scenario tree. -/
theorem c10_export_pure_witness :
    (to_mermaid scenarioTree).2 = scenarioTree ∧
    ∃ s, (to_ascii scenarioTree).1 = some s := by
  have h := c10_export_pure (fun _ => "") (fun _ => "") scenarioTree
  exact ⟨h.2.2.1, h.2.2.2.2.2 "r" rfl (by decide) (by decide)⟩

/-! ## Claim C7 — ASCII renderer cycle defense -/

/-- The legend is appended exactly when a cycle marker was emitted
(stated over the final line list: a marker line exists iff the legend
line is present — the legend line itself contains the marker glyph, so
the equivalence is unconditional). -/
theorem legend_iff (L : List String) :
    (∃ l ∈ (if L.any (fun l => pySubstr "🔄" l) then L ++ ["", legendLine]
            else L), pySubstr "🔄" l = true) ↔
      legendLine ∈ (if L.any (fun l => pySubstr "🔄" l) then
                      L ++ ["", legendLine]
                    else L) := by
  cases hany : L.any (fun l => pySubstr "🔄" l) with
  | true =>
    simp only [hany, if_true]
    constructor
    · intro _
      simp
    · intro _
      obtain ⟨l, hl, hs⟩ := List.any_eq_true.mp hany
      exact ⟨l, List.mem_append_left _ hl, hs⟩
  | false =>
    simp only [hany, Bool.false_eq_true, if_false]
    constructor
    · rintro ⟨l, hl, hs⟩
      have := List.any_eq_true.mpr ⟨l, hl, hs⟩
      rw [hany] at this
      exact absurd this (by simp)
    · intro hmem
      have hligh : pySubstr "🔄" legendLine = true := by decide
      have := List.any_eq_true.mpr ⟨legendLine, hmem, hligh⟩
      rw [hany] at this
      exact absurd this (by simp)

/-- C7 (counterexample).  `deepCycTree` contains the directed cycle
c22→c23→c22, reachable from the root — but it lies below the renderer's
depth-20 ceiling, so the output terminates with a max-depth placeholder
and contains **no** "loops back to" marker (and hence no legend). -/
theorem c7_ascii_counterexample :
    (dictGet deepCycTree.nodes "c22").map DecisionNode.children =
      some [("go", "c23")] ∧
    (dictGet deepCycTree.nodes "c23").map DecisionNode.children =
      some [("back", "c22")] ∧
    (canReach deepCycTree 30 "c0" "c22" []).1 = true ∧
    (to_ascii deepCycTree).1.isSome = true ∧
    pySubstr "loops back to" (((to_ascii deepCycTree).1).getD "") = false ∧
    pySubstr legendLine (((to_ascii deepCycTree).1).getD "") = false := by
  refine ⟨by decide, by decide, by decide, by decide, ?_, ?_⟩ <;>
    set_option maxRecDepth 400000 in decide

/-- C7 (amended).  When a repeated node is encountered within the
depth-20 recursion limit, the renderer terminates, emits a
"loops back to: ⟨short label of the node's first occurrence⟩" line
instead of recursing, and appends the legend; in general the legend line
is present exactly when some cycle-marker line was emitted.  (A cycle
whose revisited node lies deeper than the ceiling is cut off by the
max-depth placeholder instead — see the counterexample.) -/
theorem c7_ascii_amended :
    (∀ g ls, to_ascii_lines g = some ls →
      ((∃ l ∈ ls, pySubstr "🔄" l = true) ↔ legendLine ∈ ls)) ∧
    to_ascii_lines shallowCycTree = some
      ["🌳 T", "", "Root: Is A?", "└── [go] Is B?", "    └── [go] Is A?",
       "        └── [go] 🔄 → loops back to: Is B?", "", legendLine] ∧
    pySubstr ("loops back to: " ++ truncQ "Is B?" 30)
      (((to_ascii shallowCycTree).1).getD "") = true := by
  refine ⟨?_, by set_option maxRecDepth 400000 in decide,
          by set_option maxRecDepth 400000 in decide⟩
  intro g ls h
  unfold to_ascii_lines at h
  cases hr : g.root_id with
  | none =>
    simp only [hr] at h
    have hls : ls = ["Empty Tree"] := by simpa using h.symm
    rw [hls]
    constructor
    · rintro ⟨l, hl, hs⟩
      rcases List.mem_singleton.mp hl with rfl
      exact absurd hs (by decide)
    · intro hmem
      exact absurd hmem (by decide)
  | some r =>
    simp only [hr] at h
    by_cases hre : r = ""
    · rw [if_pos hre] at h
      have hls : ls = ["Empty Tree"] := by simpa using h.symm
      rw [hls]
      constructor
      · rintro ⟨l, hl, hs⟩
        rcases List.mem_singleton.mp hl with rfl
        exact absurd hs (by decide)
      · intro hmem
        exact absurd hmem (by decide)
    · rw [if_neg hre] at h
      cases hd : dictGet g.nodes r with
      | none => simp only [hd] at h; exact absurd h (by simp)
      | some root_node =>
        simp only [hd] at h
        have hls := (Option.some.inj h).symm
        rw [hls]
        exact legend_iff _

/-- Witness for `c7_ascii_amended` at the shallow two-node cycle. -/
theorem c7_ascii_amended_witness :
    legendLine ∈
      ["🌳 T", "", "Root: Is A?", "└── [go] Is B?", "    └── [go] Is A?",
       "        └── [go] 🔄 → loops back to: Is B?", "", legendLine] := by
  have h := c7_ascii_amended.1 shallowCycTree
    ["🌳 T", "", "Root: Is A?", "└── [go] Is B?", "    └── [go] Is A?",
     "        └── [go] 🔄 → loops back to: Is B?", "", legendLine]
    c7_ascii_amended.2.1
  exact h.mp ⟨"        └── [go] 🔄 → loops back to: Is B?", by simp,
    by decide⟩

/-! ## Claim C3 — edge selection requires a truthy answer value -/

theorem exactPhase_eq_none (children answers : List (String × String))
    (h : ∀ p ∈ answers, truthy p.2 = false) :
    exactPhase children answers = none := by
  unfold exactPhase
  rw [List.find?_eq_none]
  intro p _
  cases hd : dictGet answers p.1 with
  | none => simp [hd]
  | some v =>
    have hv := h _ (dictGet_mem hd)
    simp [hd, hv]

theorem fuzzyPhase_eq_none (children answers : List (String × String))
    (h : ∀ p ∈ answers, truthy p.2 = false) :
    fuzzyPhase children answers = none := by
  unfold fuzzyPhase
  have : children.find? (fun p =>
      p.2 != "" &&
      answers.any (fun q =>
        (pySubstr (pyLower p.1) (pyLower q.1) ||
         pySubstr (pyLower q.1) (pyLower p.1)) && truthy q.2)) = none := by
    rw [List.find?_eq_none]
    intro p _
    have hany : answers.any (fun q =>
        (pySubstr (pyLower p.1) (pyLower q.1) ||
         pySubstr (pyLower q.1) (pyLower p.1)) && truthy q.2) = false := by
      rw [List.any_eq_false]
      intro q hq
      simp [h q hq]
    simp [hany]
  rw [this]

theorem findNextEdge_eq_none (children answers : List (String × String))
    (h : ∀ p ∈ answers, truthy p.2 = false) :
    findNextEdge children answers = none := by
  unfold findNextEdge
  rw [exactPhase_eq_none children answers h,
      fuzzyPhase_eq_none children answers h]

/-- C3.  At the root (a non-action node), a child edge is followed only
when the answers map holds some value that is truthy after
lower-casing/stripping ("true"/"yes"/"1"/"y"): edge labels are matched
against answers-map **keys** (exact key membership, then substring
overlap), never against the node's question, so if no value in the map
is truthy — e.g. an entry keyed by the question whose value merely equals
an edge label, such as "no" or "low" — no edge is selected and the
traversal reports the no-matching-path outcome after the single root
visit. -/
theorem c3_truthy_gate (g : DecisionTree)
    (answers : List (String × String)) (r : String) (node : DecisionNode)
    (h1 : g.root_id = some r) (h2 : r ≠ "")
    (h3 : dictGet g.nodes r = some node)
    (h4 : node.node_type ≠ "action")
    (h5 : ∀ p ∈ answers, truthy p.2 = false) :
    traverse g answers =
      (none, [.node node.question,
              .noMatch (node.children.map Prod.fst)]) := by
  unfold traverse
  simp only [h1]
  rw [if_neg h2]
  rw [show (100 : Nat) = 99 + 1 from rfl, traverseLoop_succ]
  rw [if_neg (by simp)]
  rw [h3]
  simp only
  rw [if_neg h4, findNextEdge_eq_none node.children answers h5]
  simp

/-- Witness for `c3_truthy_gate`: the scenario tree with the
question-keyed map `{"Is it urgent?": "no", "Check severity": "low"}` —
the value "no" equals the edge label "no", yet no edge is selected. -/
theorem c3_truthy_gate_witness :
    traverse scenarioTree
        [("Is it urgent?", "no"), ("Check severity", "low")] =
      (none, [.node "Is it urgent?", .noMatch ["yes", "no"]]) :=
  c3_truthy_gate scenarioTree
    [("Is it urgent?", "no"), ("Check severity", "low")] "r"
    (condN "r" "Is it urgent?" [("yes", "a1"), ("no", "c1")])
    rfl (by decide) (by decide) (by decide) (by decide)

/-! ## Claim C6 — traversal termination and guards -/

theorem nodeCount_append (p q : List PathEntry) :
    nodeCount (p ++ q) = nodeCount p + nodeCount q := by
  unfold nodeCount
  exact List.countP_append _ _ _

theorem traverseLoop_nodeCount (g : DecisionTree)
    (answers : List (String × String)) :
    ∀ fuel current path visited,
      nodeCount (traverseLoop g answers fuel current path visited).2 ≤
        nodeCount path + fuel := by
  intro fuel
  induction fuel with
  | zero =>
    intro current path visited
    simp [traverseLoop, nodeCount_append, nodeCount]
  | succ n ih =>
    intro current path visited
    rw [traverseLoop_succ]
    cases hv : visited.contains current with
    | true =>
      rw [if_pos rfl]
      simp [nodeCount_append, nodeCount]
    | false =>
      rw [if_neg (by simp)]
      cases hd : dictGet g.nodes current with
      | none => simp [nodeCount_append, nodeCount]
      | some node =>
        dsimp only
        by_cases ht : node.node_type = "action"
        · rw [if_pos ht]
          dsimp only
          simp only [nodeCount_append]
          have h1 : nodeCount [PathEntry.node node.question] = 1 := by
            simp [nodeCount]
          have h2 : nodeCount [PathEntry.action (match node.action with
              | some a => if a = "" then "No action specified" else a
              | none => "No action specified")] = 0 := by
            simp [nodeCount]
          omega
        · rw [if_neg ht]
          cases he : findNextEdge node.children answers with
          | none =>
            simp only [nodeCount_append]
            have h1 : nodeCount [PathEntry.node node.question] = 1 := by
              simp [nodeCount]
            have h2 : nodeCount
                [PathEntry.noMatch (node.children.map Prod.fst)] = 0 := by
              simp [nodeCount]
            omega
          | some lp =>
            cases lp with
            | mk lbl nid =>
              dsimp only
              have hih := ih nid
                ((path ++ [PathEntry.node node.question]) ++
                  [PathEntry.answer lbl])
                (current :: visited)
              simp only [nodeCount_append] at hih
              have h1 : nodeCount [PathEntry.node node.question] = 1 := by
                simp [nodeCount]
              have h2 : nodeCount [PathEntry.answer lbl] = 0 := by
                simp [nodeCount]
              omega

theorem traverseLoop_terminal (g : DecisionTree)
    (answers : List (String × String)) :
    ∀ fuel current path visited,
      ∃ e, (traverseLoop g answers fuel current path visited).2.getLast? =
        some e ∧ isTerminal e = true := by
  intro fuel
  induction fuel with
  | zero =>
    intro current path visited
    exact ⟨.maxDepth, by simp [traverseLoop], rfl⟩
  | succ n ih =>
    intro current path visited
    rw [traverseLoop_succ]
    cases hv : visited.contains current with
    | true =>
      rw [if_pos rfl]
      exact ⟨.cycleDetected current, by simp, rfl⟩
    | false =>
      rw [if_neg (by simp)]
      cases hd : dictGet g.nodes current with
      | none => exact ⟨.nodeNotFound current, by simp, rfl⟩
      | some node =>
        dsimp only
        by_cases ht : node.node_type = "action"
        · rw [if_pos ht]
          exact ⟨_, List.getLast?_concat _, rfl⟩
        · rw [if_neg ht]
          cases he : findNextEdge node.children answers with
          | none =>
            exact ⟨.noMatch (node.children.map Prod.fst),
              List.getLast?_concat _, rfl⟩
          | some lp =>
            cases lp with
            | mk lbl nid => exact ih _ _ _

/-- C6.  Traversal always terminates with a classified outcome: (a) it
visits at most 100 nodes on any graph and any answers map (the depth
guard); (b) the path always ends in a terminal outcome entry, returned as
an ordinary value, never an exception; (c) on the two-node cycle built by
direct data import — impossible through `add_child` — the revisit is
detected and reported as the cycle outcome; (d) on a 105-node chain the
traversal stops after exactly 100 visited nodes with the max-depth
outcome. -/
theorem c6_traverse_guards :
    (∀ (g : DecisionTree) (answers : List (String × String)),
      nodeCount (traverse g answers).2 ≤ 100) ∧
    (∀ (g : DecisionTree) (answers : List (String × String)),
      ∃ e, (traverse g answers).2.getLast? = some e ∧
        isTerminal e = true) ∧
    traverse cyc2Tree [("go", "yes")] =
      (none, [.node "Is A?", .answer "go", .node "Is B?", .answer "go",
              .cycleDetected "a"]) ∧
    (traverse chainTree [("go", "y")]).1 = none ∧
    (traverse chainTree [("go", "y")]).2.getLast? = some .maxDepth ∧
    nodeCount (traverse chainTree [("go", "y")]).2 = 100 := by
  refine ⟨?_, ?_, by decide, ?_, ?_, ?_⟩
  · intro g answers
    unfold traverse
    cases hr : g.root_id with
    | none => simp [nodeCount]
    | some r =>
      simp only
      by_cases hre : r = ""
      · simp [hre, nodeCount]
      · rw [if_neg hre]
        simpa using traverseLoop_nodeCount g answers 100 r [] []
  · intro g answers
    unfold traverse
    cases hr : g.root_id with
    | none => exact ⟨.emptyTree, by simp, rfl⟩
    | some r =>
      simp only
      by_cases hre : r = ""
      · exact ⟨.emptyTree, by simp [hre], rfl⟩
      · rw [if_neg hre]
        exact traverseLoop_terminal g answers 100 r [] []
  · set_option maxRecDepth 1000000 in decide
  · set_option maxRecDepth 1000000 in decide
  · set_option maxRecDepth 1000000 in decide

/-! ## Claim C2 — edge-matching precedence -/

/-- C2 (counterexample).  `DecisionTree.traverse` does not implement the
claimed question-lookup / label-matching precedence: on the scenario
tree, the answers map `{"Is it urgent?": "yes"}` supplies for the root's
question a value that is an exact (string-equal) child-edge label, so
under the claimed semantics the "yes" edge would be selected and
"Escalate now" returned — but `traverse` reports no matching path. -/
theorem c2_matching_counterexample :
    dictGet [("Is it urgent?", "yes")] "Is it urgent?" = some "yes" ∧
    (dictGet scenarioTree.nodes "r").map DecisionNode.children =
      some [("yes", "a1"), ("no", "c1")] ∧
    traverse scenarioTree [("Is it urgent?", "yes")] =
      (none, [.node "Is it urgent?", .noMatch ["yes", "no"]]) ∧
    (traverse scenarioTree [("Is it urgent?", "yes")]).1 ≠
      some "Escalate now" :=
  ⟨by decide, by decide, by decide, by decide⟩

/-- C2 (amended).  The claimed precedence holds of the robust variant:
`RobustDecisionTree.find_best_match` selects the child for the node's
looked-up answer value by exact match first, then case-insensitive
match, then (a step the claim omits) regex-pattern labels, then fuzzy
substring match, each "first match in child-insertion order", falling
back to the node's fallback when nothing matches.  `find_best_match`
coincides with `bestMatchSpec`, the direct rendering of that precedence,
for every node, answer and regex oracle. -/
theorem c2_matching_amended (reMatch : String → String → Bool)
    (node : RobustNode) (answer : String) :
    find_best_match reMatch node answer = bestMatchSpec reMatch node answer := by
  unfold find_best_match bestMatchSpec
  by_cases hc : node.children = []
  · rw [if_pos hc, if_pos hc]
  · rw [if_neg hc, if_neg hc]
    cases he : dictGet node.children answer with
    | some c => simp
    | none =>
      simp only [Option.map_none, Option.none_orElse]
      cases hci : node.children.find? (fun p => pyLower p.1 == pyLower answer) with
      | some p => simp
      | none =>
        simp only [Option.map_none, Option.none_orElse]
        cases hrx : node.children.find? (fun p =>
            pyStartsWith p.1 "regex:" && reMatch (pyDrop p.1 6) answer) with
        | some p => simp
        | none =>
          simp only [Option.map_none, Option.none_orElse]
          cases hpt : node.children.find? (fun p =>
              !(pyStartsWith p.1 "regex:") &&
              (pySubstr (pyLower answer) (pyLower p.1) ||
               pySubstr (pyLower p.1) (pyLower answer))) with
          | some p => simp
          | none =>
            simp only [Option.map_none, Option.none_orElse, Option.getD_none]
            cases node.fallback_node <;> rfl

/-- Witness for `c2_matching_amended` at a concrete node and answer
(exact label beats the also-matching case-insensitive and substring
candidates). -/
theorem c2_matching_amended_witness :
    find_best_match (fun _ _ => false)
        { children := [("YES", "n1"), ("yes", "n2"), ("ye", "n3")],
          fallback_node := none, fallback_reason := none } "yes" =
      bestMatchSpec (fun _ _ => false)
        { children := [("YES", "n1"), ("yes", "n2"), ("ye", "n3")],
          fallback_node := none, fallback_reason := none } "yes" :=
  c2_matching_amended (fun _ _ => false)
    { children := [("YES", "n1"), ("yes", "n2"), ("ye", "n3")],
      fallback_node := none, fallback_reason := none } "yes"

/-! ## Claim C4 — add_child rejections -/

/-- C4.  `add_child` fails with the not-found error when either id is
unknown (or empty, which Python treats as falsy), and with the cycle
error when the link would close a directed cycle — in particular for a
self-loop, for the reverse of an existing edge A→B, and for closing a
chain A→B→C back to A.  In every failing case the result is an `error`
value carrying no tree: all `raise` sites precede the mutation, so the
caller's graph is untouched.  When no guard fires, the only change is
the new `answer → child` entry in the parent's children map plus the
updated timestamp. -/
theorem c4_add_child_rejects :
    (∀ (g : DecisionTree) (now p a c : String),
      (p = "" ∨ dictGet g.nodes p = none) →
      add_child g now p a c = .error (.notFound p)) ∧
    (∀ (g : DecisionTree) (now p a c : String),
      p ≠ "" → dictGet g.nodes p ≠ none →
      (c = "" ∨ dictGet g.nodes c = none) →
      add_child g now p a c = .error (.notFound c)) ∧
    (∀ (g : DecisionTree) (now p a c : String),
      p ≠ "" → dictGet g.nodes p ≠ none →
      c ≠ "" → dictGet g.nodes c ≠ none →
      pyStrip a ≠ "" → would_create_cycle g p c = true →
      add_child g now p a c = .error (.cycle p c)) ∧
    (∀ (g : DecisionTree) (p : String), would_create_cycle g p p = true) ∧
    add_child gAB "t3" "A" "x" "A" = .error (.cycle "A" "A") ∧
    add_child gAB "t3" "B" "x" "A" = .error (.cycle "B" "A") ∧
    add_child gABC "t3" "C" "x" "A" = .error (.cycle "C" "A") ∧
    add_child gAB "t3" "A" "x" "nonexistent-id" =
      .error (.notFound "nonexistent-id") ∧
    (∀ (g : DecisionTree) (now p a c : String) (parent : DecisionNode),
      dictGet g.nodes p = some parent → p ≠ "" →
      c ≠ "" → dictGet g.nodes c ≠ none →
      pyStrip a ≠ "" → would_create_cycle g p c = false →
      add_child g now p a c = .ok
        { g with
          nodes := dictSet g.nodes p
            { parent with
              children := dictSet parent.children (pyStrip a) c },
          updated_at := now }) := by
  refine ⟨?_, ?_, ?_, ?_, by rfl, by rfl, by rfl, by rfl, ?_⟩
  · intro g now p a c h
    unfold add_child
    rw [if_pos]
    rcases h with h | h
    · simp [h]
    · simp [dictContains, h]
  · intro g now p a c hp1 hp2 h
    unfold add_child
    rw [if_neg (by simp [hp1, dictContains, Option.isSome_iff_ne_none, hp2])]
    rw [if_pos]
    rcases h with h | h
    · simp [h]
    · simp [dictContains, h]
  · intro g now p a c hp1 hp2 hc1 hc2 ha hcy
    unfold add_child
    rw [if_neg (by simp [hp1, dictContains, Option.isSome_iff_ne_none, hp2])]
    rw [if_neg (by simp [hc1, dictContains, Option.isSome_iff_ne_none, hc2])]
    rw [if_neg (by simp [ha])]
    rw [if_pos hcy]
  · intro g p
    unfold would_create_cycle
    simp
  · intro g now p a c parent hp hp1 hc1 hc2 ha hcy
    unfold add_child
    rw [if_neg (by simp [hp1, dictContains, hp])]
    rw [if_neg (by simp [hc1, dictContains, Option.isSome_iff_ne_none, hc2])]
    rw [if_neg (by simp [ha])]
    rw [if_neg (by simp [hcy])]
    dsimp only
    rw [hp]

/-- Witness for `c4_add_child_rejects`: linking the orphan of
`orphanTree` under its root succeeds and yields `linkedTree`. -/
theorem c4_add_child_rejects_witness :
    add_child orphanTree "t3" "r1" "go" "n2" = .ok linkedTree := by
  have h := c4_add_child_rejects.2.2.2.2.2.2.2.2 orphanTree "t3" "r1" "go"
    "n2" (condN "r1" "Start?" []) (by decide) (by decide) (by decide)
    (by decide) (by decide) (by decide)
  exact h.trans (by rfl)

/-! ## Claim C9 — validate_tree characterization -/

theorem rootIssuesOf_nil_iff (g : DecisionTree) :
    rootIssuesOf g = [] ↔
      ∃ r, g.root_id = some r ∧ r ≠ "" ∧ dictGet g.nodes r ≠ none := by
  unfold rootIssuesOf
  cases hr : g.root_id with
  | none => simp
  | some r =>
    dsimp only
    by_cases hre : r = ""
    · rw [if_pos hre]
      simp [hre]
    · rw [if_neg hre]
      cases hc : dictContains g.nodes r with
      | true =>
        rw [if_neg (by simp [hc])]
        constructor
        · intro _
          refine ⟨r, rfl, hre, ?_⟩
          intro hnone
          have hcf := (dictContains_false_iff g.nodes r).mpr hnone
          rw [hcf] at hc
          exact absurd hc (by simp)
        · intro _
          rfl
      | false =>
        rw [if_pos (by simp [hc])]
        constructor
        · intro h
          exact absurd h (by simp)
        · rintro ⟨r2, hr2, _, hg⟩
          have : r = r2 := Option.some.inj hr2
          rw [← this] at hg
          exact absurd ((dictContains_false_iff g.nodes r).mp hc) hg

theorem orphanIssuesOf_nil_iff (g : DecisionTree) (r : String)
    (hr : g.root_id = some r) (hre : r ≠ "")
    (hg : dictGet g.nodes r ≠ none) :
    orphanIssuesOf g = [] ↔
      ∀ nid ∈ g.nodes.map Prod.fst,
        (reachableFromRoot g r).contains nid = true := by
  unfold orphanIssuesOf
  simp only [hr]
  have hcon : dictContains g.nodes r = true := by
    cases hc : dictContains g.nodes r with
    | true => rfl
    | false => exact absurd ((dictContains_false_iff g.nodes r).mp hc) hg
  rw [if_neg (by simp [hre, hcon])]
  cases ho : (g.nodes.map Prod.fst).filter
      (fun nid => !((reachableFromRoot g r).contains nid)) with
  | nil =>
    rw [if_pos rfl]
    constructor
    · intro _ nid hnid
      have := List.filter_eq_nil_iff.mp ho nid hnid
      simpa using this
    · intro _
      rfl
  | cons x xs =>
    rw [if_neg (by simp)]
    constructor
    · intro h
      exact absurd h (by simp)
    · intro hall
      have hx : x ∈ (g.nodes.map Prod.fst).filter
          (fun nid => !((reachableFromRoot g r).contains nid)) := by
        rw [ho]; exact List.mem_cons_self x xs
      have hmem := List.mem_of_mem_filter hx
      have hprop := List.of_mem_filter hx
      rw [hall x hmem] at hprop
      exact absurd hprop (by simp)

theorem danglingIssuesOf_nil_iff (g : DecisionTree) :
    danglingIssuesOf g = [] ↔
      ∀ p ∈ g.nodes, ∀ cp ∈ p.2.children, dictGet g.nodes cp.2 ≠ none := by
  unfold danglingIssuesOf
  rw [List.flatMap_eq_nil_iff]
  constructor
  · intro h p hp cp hcp
    have := List.filterMap_eq_nil_iff.mp (h p hp) cp hcp
    intro hnone
    have hcf : dictContains g.nodes cp.2 = false :=
      (dictContains_false_iff g.nodes cp.2).mpr hnone
    rw [if_pos (by simp [hcf])] at this
    exact absurd this (by simp)
  · intro h p hp
    rw [List.filterMap_eq_nil_iff]
    intro cp hcp
    rw [if_neg]
    intro hcontra
    have h1 : dictContains g.nodes cp.2 = false := by simpa using hcontra
    exact absurd ((dictContains_false_iff g.nodes cp.2).mp h1) (h p hp cp hcp)

theorem actionIssuesOf_nil_iff (g : DecisionTree) :
    actionIssuesOf g = [] ↔
      ∀ p ∈ g.nodes, p.2.node_type = "action" → p.2.children = [] := by
  unfold actionIssuesOf
  rw [List.filterMap_eq_nil_iff]
  constructor
  · intro h p hp ht
    have := h p hp
    by_cases hch : p.2.children = []
    · exact hch
    · rw [if_pos (by simp [ht, hch])] at this
      exact absurd this (by simp)
  · intro h p hp
    rw [if_neg]
    intro hcontra
    rw [Bool.and_eq_true] at hcontra
    have ht : p.2.node_type = "action" := of_decide_eq_true hcontra.1
    have hb := hcontra.2
    rw [h p hp ht] at hb
    simp at hb

/-- C9.  `validate_tree` returns the empty issue list exactly when the
graph is healthy: non-empty, with a root id naming an existing node,
every node reachable from the root, every child edge targeting an
existing node, and no action node with children.  Concretely, the node
added to `orphanTree` but never linked is reported as orphaned, and
linking it in (`linkedTree`) removes the report. -/
theorem c9_validate :
    (∀ g : DecisionTree, validate_tree g = [] ↔
      (g.nodes ≠ [] ∧
       (∃ r, g.root_id = some r ∧ r ≠ "" ∧ dictGet g.nodes r ≠ none ∧
         ∀ nid ∈ g.nodes.map Prod.fst,
           (reachableFromRoot g r).contains nid = true) ∧
       (∀ p ∈ g.nodes, ∀ cp ∈ p.2.children, dictGet g.nodes cp.2 ≠ none) ∧
       (∀ p ∈ g.nodes, p.2.node_type = "action" → p.2.children = []))) ∧
    validate_tree (mkTree [] none) = [.emptyTreeIssue] ∧
    validate_tree orphanTree = [.orphaned ["n2"]] ∧
    validate_tree linkedTree = [] := by
  refine ⟨?_, by decide, by decide, by decide⟩
  intro g
  unfold validate_tree
  by_cases hn : g.nodes = []
  · rw [if_pos hn]
    simp [hn]
  · rw [if_neg hn]
    simp only [List.append_eq_nil]
    constructor
    · rintro ⟨⟨⟨h1, h2⟩, h3⟩, h4⟩
      obtain ⟨r, hr, hre, hg⟩ := (rootIssuesOf_nil_iff g).mp h1
      refine ⟨hn, ⟨r, hr, hre, hg, ?_⟩,
        (danglingIssuesOf_nil_iff g).mp h3,
        (actionIssuesOf_nil_iff g).mp h4⟩
      exact (orphanIssuesOf_nil_iff g r hr hre hg).mp h2
    · rintro ⟨_, ⟨r, hr, hre, hg, hreach⟩, h3, h4⟩
      refine ⟨⟨⟨(rootIssuesOf_nil_iff g).mpr ⟨r, hr, hre, hg⟩,
        (orphanIssuesOf_nil_iff g r hr hre hg).mpr hreach⟩,
        (danglingIssuesOf_nil_iff g).mpr h3⟩,
        (actionIssuesOf_nil_iff g).mpr h4⟩

/-! ## Claim C8 — add_node validation and effect -/

/-- C8.  `add_node` fails exactly when the question is empty after
trimming, the kind is not one of condition/action/data, or a supplied
confidence lies outside [0, 1]; otherwise, provided the externally
generated id is indeed fresh, it appends one new node carrying the
trimmed question and the given fields, returns that id, and makes the
new node the root exactly when the graph had no root (`Option.getD`
keeps an existing root). -/
theorem c8_add_node :
    (∀ (g : DecisionTree) (fresh now q nt : String) (act : Option String)
       (conf : Option Rat) (meta : List (String × String)),
      ((∃ e, add_node g fresh now q nt act conf meta = .error e) ↔
        (pyStrip q = "" ∨
         nt ∉ (["condition", "action", "data"] : List String) ∨
         ∃ cc, conf = some cc ∧ (cc < 0 ∨ 1 < cc)))) ∧
    (∀ (g : DecisionTree) (fresh now q nt : String) (act : Option String)
       (conf : Option Rat) (meta : List (String × String)),
      pyStrip q ≠ "" → nt ∈ (["condition", "action", "data"] : List String) →
      (∀ cc, conf = some cc → 0 ≤ cc ∧ cc ≤ 1) →
      dictGet g.nodes fresh = none →
      add_node g fresh now q nt act conf meta = .ok (fresh,
        { g with
          nodes := g.nodes ++
            [(fresh,
              { id := fresh, question := pyStrip q, node_type := nt,
                children := [], action := act, confidence := conf,
                metadata := meta })],
          root_id := some (g.root_id.getD fresh),
          updated_at := now })) := by
  constructor
  · intro g fresh now q nt act conf meta
    unfold add_node
    by_cases h1 : pyStrip q = ""
    · rw [if_pos h1]
      simp [h1]
    · rw [if_neg h1]
      by_cases h2 : nt ∈ (["condition", "action", "data"] : List String)
      · rw [if_neg (by simp [List.contains, List.elem_iff, h2])]
        cases conf with
        | none =>
          rw [if_neg (by simp)]
          simp [h1, h2]
        | some cc =>
          by_cases h3 : 0 ≤ cc ∧ cc ≤ 1
          · rw [if_neg (by simp [h3.1, h3.2])]
            constructor
            · rintro ⟨e, he⟩
              exact absurd he (by simp)
            · rintro (hq | hnt | ⟨cc2, hcc2, hout⟩)
              · exact absurd hq h1
              · exact absurd h2 hnt
              · rcases Option.some.inj hcc2 with rfl
                rcases hout with hlt | hgt
                · exact absurd h3.1 (not_le.mpr hlt)
                · exact absurd h3.2 (not_le.mpr hgt)
          · rw [if_pos (by
              rcases not_and_or.mp h3 with hlt | hgt
              · simp [not_le.mp hlt]
              · simp [not_le.mp hgt, (not_le.mp hgt).le])]
            constructor
            · intro _
              right; right
              refine ⟨cc, rfl, ?_⟩
              rcases not_and_or.mp h3 with hlt | hgt
              · exact Or.inl (not_le.mp hlt)
              · exact Or.inr (not_le.mp hgt)
            · intro _
              exact ⟨_, rfl⟩
      · rw [if_pos (by simp [List.contains, List.elem_iff, h2])]
        simp [h2]
  · intro g fresh now q nt act conf meta h1 h2 h3 hfresh
    unfold add_node
    rw [if_neg h1]
    rw [if_neg (by simp [List.contains, List.elem_iff, h2])]
    rw [if_neg (by
      cases conf with
      | none => simp
      | some cc => simp [(h3 cc rfl).1, (h3 cc rfl).2])]
    dsimp only
    rw [dictSet_of_get_none _ hfresh]
    cases hr : g.root_id <;> simp [hr]

/-- Witness for `c8_add_node`: the first `add_node` call of the scenario
build, on the empty tree, which creates the root. -/
theorem c8_add_node_witness :
    add_node (mkTree [] none) "r" "t1" "Is it urgent?" "condition"
        none none [] = .ok ("r",
      { mkTree [] none with
        nodes := [("r", condN "r" "Is it urgent?" [])],
        root_id := some "r", updated_at := "t1" }) := by
  have h := c8_add_node.2 (mkTree [] none) "r" "t1" "Is it urgent?"
    "condition" none none [] (by decide) (by decide)
    (fun cc hcc => by cases hcc) (by decide)
  exact h.trans (by rfl)

/-- Witness for `c9_validate`: instantiating the characterization at
`linkedTree` yields its health conditions. -/
theorem c9_validate_witness :
    linkedTree.nodes ≠ [] ∧
    (∃ r, linkedTree.root_id = some r ∧ r ≠ "" ∧
      dictGet linkedTree.nodes r ≠ none ∧
      ∀ nid ∈ linkedTree.nodes.map Prod.fst,
        (reachableFromRoot linkedTree r).contains nid = true) ∧
    (∀ p ∈ linkedTree.nodes, ∀ cp ∈ p.2.children,
      dictGet linkedTree.nodes cp.2 ≠ none) ∧
    (∀ p ∈ linkedTree.nodes, p.2.node_type = "action" →
      p.2.children = []) :=
  (c9_validate.1 linkedTree).mp (by decide)

end DecisionTreeTool
